import Mathlib

/-!
A shallow embedding of the `discord_webhook` library
(`src/discord_webhook/webhook.py` and `src/discord_webhook/async_webhook.py`).

Pure data-shaping code (embeds, serialization) is translated to plain Lean
functions; the request lifecycle (`execute`, `edit`, `delete`,
`handle_rate_limit`) is modelled as explicit state passing over a
`WebhookState`, with the network modelled as an oracle: the first canned
response plus a list of pending responses consumed by retries.  Python
exceptions become `Except` errors; mutations performed on `self` before a
raise are kept in the returned state, matching Python object semantics.
-/

namespace DiscordWebhookModel

/-- Python string truthiness: a string is truthy iff nonempty. -/
def truthyStr : Option String → Bool
  | some s => s != ""
  | none => false

/-- Embed field dict, as built by `add_embed_field` (webhook.py line 320):
keys `name`, `value`, `inline` in insertion order, `inline` defaulting to true. -/
structure EmbedFieldDict where
  name : String
  value : String
  inlineFlag : Bool := true
deriving Repr, DecidableEq

/-- The key list of an embed field dict in Python iteration (insertion) order:
`add_embed_field` always stores all three keys. -/
def fieldDictKeys (_f : EmbedFieldDict) : List String :=
  ["name", "value", "inline"]

/-- Embed footer dict built by `set_footer` (webhook.py lines 177-195):
`text` always present, the other keys only when truthy. -/
structure EmbedFooterDict where
  text : String
  icon_url : Option String := none
  proxy_icon_url : Option String := none
deriving Repr, DecidableEq

/-- Number of keys of a footer dict (Python `len` of a dict). -/
def footerDictLen (f : EmbedFooterDict) : Nat :=
  1 + (if f.icon_url.isSome then 1 else 0) + (if f.proxy_icon_url.isSome then 1 else 0)

/-- Embed author dict built by `set_author` (webhook.py lines 287-311). -/
structure EmbedAuthorDict where
  name : String
  url : Option String := none
  icon_url : Option String := none
  proxy_icon_url : Option String := none
deriving Repr, DecidableEq

/-- Number of keys of an author dict (Python `len` of a dict). -/
def authorDictLen (a : EmbedAuthorDict) : Nat :=
  1 + (if a.url.isSome then 1 else 0) + (if a.icon_url.isSome then 1 else 0)
    + (if a.proxy_icon_url.isSome then 1 else 0)

/-- Embed image dict built by `set_image` (webhook.py lines 197-222). -/
structure EmbedImageDict where
  url : String
  proxy_url : Option String := none
  height : Option Int := none
  width : Option Int := none
deriving Repr, DecidableEq

/-- Embed thumbnail dict built by `set_thumbnail` (webhook.py lines 224-247). -/
structure EmbedThumbnailDict where
  url : String
  proxy_url : Option String := none
  height : Option Int := none
  width : Option Int := none
deriving Repr, DecidableEq

/-- Embed video dict built by `set_video` (webhook.py lines 249-270): all keys
optional, so the dict may be empty (and then Python-falsy). -/
structure EmbedVideoDict where
  url : Option String := none
  height : Option Int := none
  width : Option Int := none
deriving Repr, DecidableEq

/-- Python truthiness of a video dict: nonempty. -/
def videoTruthy (v : EmbedVideoDict) : Bool :=
  v.url.isSome || v.height.isSome || v.width.isSome

/-- Embed provider dict built by `set_provider` (webhook.py lines 272-285). -/
structure EmbedProviderDict where
  name : Option String := none
  url : Option String := none
deriving Repr, DecidableEq

/-- Python truthiness of a provider dict: nonempty. -/
def providerTruthy (p : EmbedProviderDict) : Bool :=
  p.name.isSome || p.url.isSome

/-- The `DiscordEmbed` object (webhook.py lines 29-78): attribute state after
construction and setter calls. -/
structure DiscordEmbed where
  title : Option String := none
  description : Option String := none
  url : Option String := none
  timestamp : Option String := none
  color : Option Int := none
  footer : Option EmbedFooterDict := none
  image : Option EmbedImageDict := none
  thumbnail : Option EmbedThumbnailDict := none
  video : Option EmbedVideoDict := none
  provider : Option EmbedProviderDict := none
  author : Option EmbedAuthorDict := none
  fields : List EmbedFieldDict := []
deriving Repr, DecidableEq

/-- The argument accepted by `set_color`: a decimal integer or a hexadecimal
string (modelled as its digit sequence). -/
inductive ColorArg where
  | int (c : Int)
  | hex (digits : List (Fin 16))
deriving Repr, DecidableEq

/-- Value of a hexadecimal digit string, as computed by Python `int(s, 16)`
for an unsigned hex literal. -/
def hexValue (ds : List (Fin 16)) : Nat :=
  ds.foldl (fun acc d => 16 * acc + d.val) 0

/-- `DiscordEmbed.set_color` (webhook.py lines 168-175).  The color attribute
is assigned first (hex strings converted via `int(color, 16)`); only then is
the range check performed, raising `ColorNotInRangeException` when the stored
color is not `None` and not in `range(16777216)`.  Returns the mutated embed
together with the raised error, if any. -/
def DiscordEmbed.set_color (color : Option ColorArg) (e : DiscordEmbed) :
    DiscordEmbed × Option String :=
  let c : Option Int :=
    match color with
    | none => none
    | some (.int i) => some i
    | some (.hex ds) => some (hexValue ds)
  let e1 := { e with color := c }
  match c with
  | none => (e1, none)
  | some v =>
      if 0 ≤ v ∧ v < 16777216 then (e1, none)
      else (e1, some "ColorNotInRangeException")

/-- Wire-format embed mapping produced by `DiscordEmbed.as_dict`
(webhook.py lines 103-133): a field is `none` when the corresponding key is
omitted from the dict. -/
structure WireEmbed where
  title : Option String := none
  description : Option String := none
  url : Option String := none
  timestamp : Option String := none
  color : Option Int := none
  footer : Option EmbedFooterDict := none
  image : Option EmbedImageDict := none
  thumbnail : Option EmbedThumbnailDict := none
  video : Option EmbedVideoDict := none
  provider : Option EmbedProviderDict := none
  author : Option EmbedAuthorDict := none
  fields : Option (List EmbedFieldDict) := none
deriving Repr, DecidableEq

/-- `DiscordEmbed.as_dict` (webhook.py lines 103-133): each key is included
only when the attribute is Python-truthy; in particular `color` is omitted
when it is `0`, and `fields` when the list is empty. -/
def DiscordEmbed.as_dict (e : DiscordEmbed) : WireEmbed :=
  { title := if truthyStr e.title then e.title else none
    description := if truthyStr e.description then e.description else none
    url := if truthyStr e.url then e.url else none
    timestamp := if truthyStr e.timestamp then e.timestamp else none
    color := match e.color with
      | some c => if c = 0 then none else some c
      | none => none
    footer := e.footer
    image := e.image
    thumbnail := e.thumbnail
    video := match e.video with
      | some v => if videoTruthy v then some v else none
      | none => none
    provider := match e.provider with
      | some p => if providerTruthy p then some p else none
      | none => none
    author := e.author
    fields := if e.fields = [] then none else some e.fields }

/-- Python tuple-unpacking `a, b = d` of a dict iterates its keys and demands
exactly two; otherwise a `ValueError` is raised. -/
def unpack2 : List String → Except String (String × String)
  | [a, b] => .ok (a, b)
  | _ => .error "ValueError: too many values to unpack"

/-- The field loop of `DiscordEmbed.__len__` (webhook.py lines 92-94):
`for field, value in self.fields` unpacks each field dict's keys into two
names and sums their lengths. -/
def fieldsLen : List EmbedFieldDict → Except String Nat
  | [] => .ok 0
  | f :: fs => do
      let (k1, k2) ← unpack2 (fieldDictKeys f)
      let rest ← fieldsLen fs
      .ok (k1.length + k2.length + rest)

/-- `DiscordEmbed.__len__` (webhook.py lines 83-101).  Note that
`len(self.footer or "")` and `len(self.author or "")` take the length of the
footer/author dicts themselves (their key count), and the field loop unpacks
each three-key field dict into two variables. -/
def DiscordEmbed.len (e : DiscordEmbed) : Except String Nat := do
  let fl ← if e.fields = [] then pure 0 else fieldsLen e.fields
  let tl := (e.title.getD "").length
  let dl := (e.description.getD "").length
  let fo := match e.footer with
    | some f => footerDictLen f
    | none => 0
  let au := match e.author with
    | some a => authorDictLen a
    | none => 0
  .ok (fl + tl + dl + fo + au)

/-- `DiscordEmbed.add_embed_field` (webhook.py lines 313-320). -/
def DiscordEmbed.add_embed_field (e : DiscordEmbed) (name value : String)
    (inlineFlag : Bool := true) : DiscordEmbed :=
  { e with fields := e.fields ++ [{ name := name, value := value, inlineFlag := inlineFlag }] }

/-- An attachment metadata entry (server-echoed); modelled by the value the
library stores and compares. -/
abbrev Att := String

/-- Content of a value in the `files` dict: raw file bytes added by
`add_file`, or the serialized `payload_json` string inserted by
`api_post_request`/`edit`. -/
inductive FileContent where
  | bytes (data : String)
  | payloadJson (dump : String)
deriving Repr, DecidableEq

/-- The `files` dict: an insertion-ordered mapping from slot key to a
`(filename, content)` tuple (filename is `None` for the payload slot). -/
abbrev FilesDict := List (String × (Option String × FileContent))

/-- Python dict lookup `d.get(k)`: the value stored under the key, if any. -/
def dictGet (d : FilesDict) (k : String) : Option (Option String × FileContent) :=
  match d with
  | [] => none
  | (a, b) :: tl => if a = k then some b else dictGet tl k

/-- Overwrite the value stored under a key, keeping its position. -/
def dictOverwrite (d : FilesDict) (k : String) (v : Option String × FileContent) :
    FilesDict :=
  match d with
  | [] => []
  | (a, b) :: tl =>
      if a = k then (k, v) :: dictOverwrite tl k v
      else (a, b) :: dictOverwrite tl k v

/-- Python dict assignment `d[k] = v`: overwrite in place when the key
exists, else append at the end. -/
def dictSet (d : FilesDict) (k : String) (v : Option String × FileContent) : FilesDict :=
  if (dictGet d k).isSome then dictOverwrite d k v
  else d ++ [(k, v)]

/-- Attribute state of a `DiscordWebhook` object (webhook.py lines 337-397).
`id` and `url` are `Option` because Python leaves `self.id` unassigned in one
constructor path and accepts a non-string `url`; `none` models the unset /
`None` case. -/
structure WebhookState where
  id : Option String := none
  url : Option String := none
  allowed_mentions : Option String := none
  attachments : List Att := []
  avatar_url : Option String := none
  components : Option String := none
  content : Option String := none
  embeds : List DiscordEmbed := []
  files : FilesDict := []
  rate_limit_retry : Bool := false
  thread_id : Option String := none
  thread_name : Option String := none
  timeout : Option ℚ := none
  tts : Bool := false
  username : Option String := none
  wait : Bool := true
deriving Repr, DecidableEq

/-- The wire payload built by the `json` property (webhook.py lines 521-560):
`url`, `id`, `rate_limit_retry` always present, every other key only when the
attribute is Python-truthy. -/
structure WebhookPayload where
  url : Option String
  id : Option String
  rate_limit_retry : Bool
  allowed_mentions : Option String := none
  attachments : Option (List Att) := none
  avatar_url : Option String := none
  content : Option String := none
  embeds : Option (List WireEmbed) := none
  thread_id : Option String := none
  thread_name : Option String := none
  tts : Option Bool := none
  username : Option String := none
  components : Option String := none
  files : Option FilesDict := none
deriving Repr, DecidableEq

/-- The `json` property (webhook.py lines 521-560): serialize the webhook
state into the wire payload, omitting falsy attributes. -/
def WebhookState.jsonProp (s : WebhookState) : WebhookPayload :=
  { url := s.url
    id := s.id
    rate_limit_retry := s.rate_limit_retry
    allowed_mentions := if truthyStr s.allowed_mentions then s.allowed_mentions else none
    attachments := if s.attachments = [] then none else some s.attachments
    avatar_url := if truthyStr s.avatar_url then s.avatar_url else none
    content := if truthyStr s.content then s.content else none
    embeds := if s.embeds = [] then none else some (s.embeds.map DiscordEmbed.as_dict)
    thread_id := if truthyStr s.thread_id then s.thread_id else none
    thread_name := if truthyStr s.thread_name then s.thread_name else none
    tts := if s.tts then some true else none
    username := if truthyStr s.username then s.username else none
    components := if truthyStr s.components then s.components else none
    files := if s.files = [] then none else some s.files }

/-- `json.dumps` of the payload, modelled as the canonical textual encoding
of the payload record. -/
def dumps (p : WebhookPayload) : String :=
  reprStr p

/-- Query parameters built by `_query_params` (webhook.py lines 609-620):
`thread_id` and `wait` only when truthy. -/
structure QueryParams where
  thread_id : Option String := none
  wait : Option Bool := none
deriving Repr, DecidableEq

def WebhookState.queryParams (s : WebhookState) : QueryParams :=
  { thread_id := if truthyStr s.thread_id then s.thread_id else none
    wait := if s.wait then some true else none }

/-- An outgoing HTTP request as the library assembles it: method, target url,
query parameters, and either a JSON body or a multipart files body. -/
structure HttpRequest where
  method : String
  url : Option String
  params : QueryParams := {}
  jsonBody : Option WebhookPayload := none
  multipart : Option FilesDict := none
deriving Repr, DecidableEq

/-- Parsed JSON response body, reduced to the keys the library reads;
`none` at the response level means the body is not valid JSON. -/
structure RespBody where
  id : Option String := none
  attachments : Option (List Att) := none
  retry_after : Option ℚ := none
deriving Repr, DecidableEq

/-- An HTTP response: status code, presence of the `Via` routing header, and
the body (`none` when it does not parse as JSON). -/
structure Response where
  status : Nat
  hasVia : Bool := false
  body : Option RespBody := none
deriving Repr, DecidableEq

/-- `DiscordWebhook.api_post_request` (webhook.py lines 562-583).  With no
files, posts the JSON payload; with files, first assigns the serialized
payload into `self.files` under the key `payload_json` (a mutation of the
webhook object) and posts the files dict as multipart.  Returns the mutated
state and the request issued. -/
def api_post_request (s : WebhookState) : WebhookState × HttpRequest :=
  if s.files = [] then
    (s, { method := "POST", url := s.url, params := s.queryParams,
          jsonBody := some s.jsonProp })
  else
    let files1 := dictSet s.files "payload_json" (none, .payloadJson (dumps s.jsonProp))
    ({ s with files := files1 },
     { method := "POST", url := s.url, params := s.queryParams,
       multipart := some files1 })

/-- Errors raised inside `handle_rate_limit`. -/
inductive RLError where
  /-- `json.loads` on a non-JSON 429 body. -/
  | jsonDecodeError
  /-- `HTTPException(errors)` when the `Via` header is absent. -/
  | httpException
  /-- `errors["retry_after"]` missing from the parsed body. -/
  | keyError
  /-- modelling artifact: the canned response stream ran out while the code
  would have kept retrying. -/
  | exhausted
deriving Repr, DecidableEq

/-- `DiscordWebhook.handle_rate_limit` (webhook.py lines 585-607), with the
network modelled by the list of pending canned responses consumed by each
resubmission.  Returns the list of sleeps performed (each
`retry_after + 0.15`) and the final response or raised error.  The
`if response.status_code in [200, 204]: break` after the resubmission is
subsumed by the loop condition, which exits on any non-429 status. -/
def handle_rate_limit (resp : Response) (pending : List Response) :
    List ℚ × Except RLError Response :=
  if resp.status = 429 then
    match resp.body with
    | none => ([], .error .jsonDecodeError)
    | some errors =>
        if resp.hasVia = false then ([], .error .httpException)
        else
          match errors.retry_after with
          | none => ([], .error .keyError)
          | some ra =>
              match pending with
              | [] => ([ra + 15/100], .error .exhausted)
              | next :: rest =>
                  let r := handle_rate_limit next rest
                  ((ra + 15/100) :: r.1, r.2)
  else ([], .ok resp)

/-- Errors that can propagate out of `execute`/`edit`/`delete`. -/
inductive ExecError where
  /-- an error raised inside the rate-limit retry loop. -/
  | rateLimit (e : RLError)
  /-- `json.loads` on a non-JSON body during final reconciliation. -/
  | jsonDecodeError
  /-- an `assert isinstance(...)` precondition failure in `edit`/`delete`. -/
  | assertionError
deriving Repr, DecidableEq

instance {ε α : Type} [DecidableEq ε] [DecidableEq α] : DecidableEq (Except ε α) := fun a b =>
  match a, b with
  | .ok x, .ok y => decidable_of_iff (x = y) (by simp)
  | .error x, .error y => decidable_of_iff (x = y) (by simp)
  | .ok _, .error _ => isFalse (by simp)
  | .error _, .ok _ => isFalse (by simp)

/-- Result of a lifecycle call: final object state, sleeps performed, and the
returned response or raised error. -/
structure ExecResult where
  state : WebhookState
  sleeps : List ℚ
  result : Except ExecError Response
deriving Repr, DecidableEq

/-- The response-dispatch step shared by `execute`, `edit` and `delete`
(webhook.py lines 629-640, 682-693, 712-716): 200/204 and every other
non-429 status return the response as-is (the latter after logging); a 429
with `rate_limit_retry` enabled enters `handle_rate_limit`. -/
def dispatch (s : WebhookState) (resp : Response) (pending : List Response) :
    List ℚ × Except RLError Response :=
  if resp.status = 200 ∨ resp.status = 204 then ([], .ok resp)
  else if resp.status = 429 ∧ s.rate_limit_retry then handle_rate_limit resp pending
  else ([], .ok resp)

/-- The post-response cleanup of `execute` (webhook.py lines 641-643):
clear embeds when `remove_embeds` was requested, then
`remove_files(clear_attachments=False)`. -/
def cleanup (s : WebhookState) (remove_embeds : Bool) : WebhookState :=
  let s2 := if remove_embeds then { s with embeds := [] } else s
  { s2 with files := [] }

/-- The reconciliation of the blocking `execute` (webhook.py lines 645-648):
absorb a truthy `id` and a truthy `attachments` from the parsed body. -/
def reconcile_sync (s : WebhookState) (b : RespBody) : WebhookState :=
  let s4 :=
    match b.id with
    | some i => if i = "" then s else { s with id := some i }
    | none => s
  match b.attachments with
  | some atts => if atts = [] then s4 else { s4 with attachments := atts }
  | none => s4

/-- The reconciliation of the non-blocking `execute` (async_webhook.py lines
139-140): absorb a truthy `id` only. -/
def reconcile_async (s : WebhookState) (b : RespBody) : WebhookState :=
  match b.id with
  | some i => if i = "" then s else { s with id := some i }
  | none => s

/-- `DiscordWebhook.execute` (webhook.py lines 622-649).  After the request
and (possibly) the retry loop: clear embeds when `remove_embeds`, always
`remove_files(clear_attachments=False)`, then `json.loads` the response body
(raising on non-JSON) and absorb truthy `id` and `attachments` values.  An
exception inside the retry loop propagates before any of the cleanup runs. -/
def execute (s : WebhookState) (remove_embeds : Bool) (resp : Response)
    (pending : List Response) : ExecResult :=
  let s1 := (api_post_request s).1
  let step := dispatch s1 resp pending
  match step.2 with
  | .error e => { state := s1, sleeps := step.1, result := .error (.rateLimit e) }
  | .ok r =>
      let s3 := cleanup s1 remove_embeds
      match r.body with
      | none => { state := s3, sleeps := step.1, result := .error .jsonDecodeError }
      | some b => { state := reconcile_sync s3 b, sleeps := step.1, result := .ok r }

/-- `AsyncDiscordWebhook.execute` (async_webhook.py lines 113-141).  Same
request and retry structure as the blocking `execute`; the cleanup clears
embeds/files identically, but the reconciliation reads only `id` from the
response body — `attachments` is never absorbed. -/
def async_execute (s : WebhookState) (remove_embeds : Bool) (resp : Response)
    (pending : List Response) : ExecResult :=
  let s1 := (api_post_request s).1
  let step := dispatch s1 resp pending
  match step.2 with
  | .error e => { state := s1, sleeps := step.1, result := .error (.rateLimit e) }
  | .ok r =>
      let s3 := cleanup s1 remove_embeds
      match r.body with
      | none => { state := s3, sleeps := step.1, result := .error .jsonDecodeError }
      | some b => { state := reconcile_async s3 b, sleeps := step.1, result := .ok r }

/-- Result of `edit`: final state, the request issued (none when an assertion
failed first), sleeps, and the returned response or error. -/
structure EditResult where
  state : WebhookState
  request : Option HttpRequest := none
  sleeps : List ℚ := []
  result : Except ExecError Response
deriving Repr, DecidableEq

/-- The message-edit endpoint url: the webhook url, then /messages/, then the id. -/
def editUrl (s : WebhookState) : String :=
  s.url.getD "" ++ "/messages/" ++ s.id.getD ""

/-- `DiscordWebhook.edit` (webhook.py lines 651-694); the async `_edit`
(async_webhook.py lines 157-182) builds the identical request shapes and has
the identical retry branch, so both are modelled here.  With no files the
PATCH carries the JSON payload and query params `wait=True`; with files the
serialized payload is assigned into `self.files` under `payload_json` (a
mutation that `edit` never undoes) and the PATCH carries the files dict with
no query params at all. -/
def edit (s : WebhookState) (resp : Response) (pending : List Response) : EditResult :=
  if s.id = none ∨ s.url = none then
    { state := s, result := .error .assertionError }
  else
    let url := editUrl s
    let s1 :=
      if s.files = [] then s
      else { s with
             files := dictSet s.files "payload_json"
               (none, .payloadJson (dumps s.jsonProp)) }
    let req : HttpRequest :=
      if s.files = [] then
        { method := "PATCH", url := some url,
          params := { wait := some true }, jsonBody := some s.jsonProp }
      else
        { method := "PATCH", url := some url, multipart := some s1.files }
    let step := dispatch s1 resp pending
    match step.2 with
    | .error e =>
        { state := s1, request := some req, sleeps := step.1,
          result := .error (.rateLimit e) }
    | .ok r =>
        { state := s1, request := some req, sleeps := step.1, result := .ok r }

/-- `DiscordWebhook.delete` (webhook.py lines 696-717): asserts id and url,
issues a DELETE, and applies the same 429 retry branch as `execute`. -/
def delete (s : WebhookState) (resp : Response) (pending : List Response) :
    List ℚ × Except ExecError Response :=
  if s.id = none ∨ s.url = none then ([], .error .assertionError)
  else
    let step := dispatch s resp pending
    match step.2 with
    | .error e => (step.1, .error (.rateLimit e))
    | .ok r => (step.1, .ok r)

/-- `AsyncDiscordWebhook.delete` (async_webhook.py lines 192-226): asserts id
and url, issues the DELETE, logs on non-2xx, and returns the response —
there is no 429 retry branch at all. -/
def async_delete (s : WebhookState) (resp : Response) :
    List ℚ × Except ExecError Response :=
  if s.id = none ∨ s.url = none then ([], .error .assertionError)
  else ([], .ok resp)

/-- Python `str.split(sep)` for a one-character separator, over the
character list: always returns at least one (possibly empty) chunk. -/
def splitOnChar (sep : Char) : List Char → List (List Char)
  | [] => [[]]
  | c :: cs =>
      let r := splitOnChar sep cs
      if c = sep then [] :: r
      else
        match r with
        | [] => [[c]]
        | h :: t => (c :: h) :: t

/-- `url.split("/")` as a list of strings. -/
def urlChunks (u : String) : List String :=
  (splitOnChar '/' u.data).map (fun cs => String.mk cs)

/-- The id-derivation step of `DiscordWebhook.__init__` (webhook.py lines
399-405).  When the `id` keyword is supplied, the guard skips the whole
block and `self.id` is never assigned (the supplied value is dropped);
when it is absent, `self.url.split("/")[-2]` is taken, with `IndexError`
and `AttributeError` converted to `ValueError`. -/
def init_id (url : Option String) (idArg : Option String) :
    Except String (Option String) :=
  match idArg with
  | some _ => .ok none
  | none =>
      match url with
      | none => .error "ValueError: id was not passed and not parseable from the URL"
      | some u =>
          let chunks := urlChunks u
          if chunks.length ≥ 2 then .ok (some (chunks.getD (chunks.length - 2) ""))
          else .error "ValueError: id was not passed and not parseable from the URL"

/-- `DiscordWebhook.__init__` (webhook.py lines 361-405), reduced to the
attributes the claims inspect; all other attributes take their constructor
defaults. -/
def init_webhook (url : Option String) (idArg : Option String) :
    Except String WebhookState := do
  let i ← init_id url idArg
  .ok { id := i, url := url }

/-! Batch construction (`create_batch`, webhook.py lines 719-729) with an
explicit heap for the one piece of Python aliasing the claims probe: each
instance's `embeds` attribute is a reference to a list.  When the shared
configuration carries no `embeds` value, every `__init__` call evaluates the
default `[]` afresh, allocating a new list per instance. -/

/-- Heap of embed lists; a webhook instance's `embeds` attribute is an index
into it. -/
abbrev EmbedStore := List (List DiscordEmbed)

/-- The shared keyword configuration passed to `create_batch`, reduced to the
parts the claims inspect: `content`, an optional shared `embeds` list
reference, and whether a `url` key is present. -/
structure BatchConfig where
  content : Option String := none
  embedsRef : Option Nat := none
  hasUrlKw : Bool := false
deriving Repr, DecidableEq

/-- The view of one constructed instance that the batch claims inspect. -/
structure WebhookView where
  url : String
  content : Option String
  embedsRef : Nat
deriving Repr, DecidableEq

/-- One `__init__` call under the heap model: `kwargs.get("embeds", [])`
either takes the shared reference from the configuration or allocates a
fresh empty list at the end of the store. -/
def init_view (u : String) (cfg : BatchConfig) (st : EmbedStore) :
    WebhookView × EmbedStore :=
  match cfg.embedsRef with
  | some r => ({ url := u, content := cfg.content, embedsRef := r }, st)
  | none => ({ url := u, content := cfg.content, embedsRef := st.length }, st ++ [[]])

/-- The constructor loop of `create_batch`: one instance per url, threading
the heap. -/
def construct_all (urls : List String) (cfg : BatchConfig) (st : EmbedStore) :
    List WebhookView × EmbedStore :=
  match urls with
  | [] => ([], st)
  | u :: rest =>
      let (w, st1) := init_view u cfg st
      let (ws, st2) := construct_all rest cfg st1
      (w :: ws, st2)

/-- `DiscordWebhook.create_batch` (webhook.py lines 719-729): raises
`TypeError` when the shared configuration carries a `url` keyword, otherwise
constructs one instance per url. -/
def create_batch (urls : List String) (cfg : BatchConfig) (st : EmbedStore) :
    Except String (List WebhookView × EmbedStore) :=
  if cfg.hasUrlKw then .error "TypeError: url cannot be used as a keyword argument."
  else .ok (construct_all urls cfg st)

/-- `DiscordWebhook.add_embed` under the heap model: append to the list the
instance's `embeds` reference points at. -/
def add_embed_at (st : EmbedStore) (r : Nat) (e : DiscordEmbed) : EmbedStore :=
  st.set r (st.getD r [] ++ [e])

/-- Read an instance's embed sequence through its reference. -/
def get_embeds_at (st : EmbedStore) (w : WebhookView) : List DiscordEmbed :=
  st.getD w.embedsRef []

/-! Concrete fixtures used by the theorems below. -/

/-- A webhook with id and url set and rate-limit retry enabled. -/
def wFix : WebhookState :=
  { id := some "1", url := some "https://x/webhooks/1/t", rate_limit_retry := true }

/-- The same webhook with one file added via `add_file("x", "a.txt")`. -/
def wFilesFix : WebhookState :=
  { wFix with files := [("_a.txt", (some "a.txt", .bytes "x"))] }

/-- A 200 response whose body is not valid JSON. -/
def respNonJson : Response := { status := 200 }

/-- A 200 response whose JSON body carries an id and attachments. -/
def resp200Body : Response :=
  { status := 200, body := some { id := some "9", attachments := some ["srv"] } }

/-- A plain 200 response with a JSON body carrying nothing of interest. -/
def resp200 : Response := { status := 200, body := some {} }

/-- A 204 response with an empty body (not valid JSON), as returned for a
send with `wait` false. -/
def resp204 : Response := { status := 204 }

/-- A 429 with the `Via` routing header and body `retry_after = 0.5`. -/
def resp429Via : Response :=
  { status := 429, hasVia := true, body := some { retry_after := some (1/2) } }

/-- A 429 without the `Via` routing header, same body. -/
def resp429NoVia : Response :=
  { status := 429, hasVia := false, body := some { retry_after := some (1/2) } }

/-! Helper lemmas about the dict operations and the request builders. -/

theorem dictGet_overwrite_self (k : String) (v : Option String × FileContent) :
    ∀ d : FilesDict, (dictGet d k).isSome →
      dictGet (dictOverwrite d k v) k = some v := by
  intro d
  induction d with
  | nil => intro h; simp [dictGet] at h
  | cons hd tl ih =>
      obtain ⟨a, b⟩ := hd
      intro h
      by_cases hk : a = k
      · simp [dictOverwrite, dictGet, hk]
      · simp only [dictGet, if_neg hk] at h
        simp only [dictOverwrite, if_neg hk]
        simpa [dictGet, hk] using ih h

theorem dictGet_overwrite_other (k k' : String) (v : Option String × FileContent)
    (hne : k' ≠ k) :
    ∀ d : FilesDict, dictGet (dictOverwrite d k v) k' = dictGet d k' := by
  intro d
  induction d with
  | nil => simp [dictGet, dictOverwrite]
  | cons hd tl ih =>
      obtain ⟨a, b⟩ := hd
      by_cases hk : a = k
      · have hkk : ¬ k = k' := fun he => hne he.symm
        have hak : ¬ a = k' := by rw [hk]; exact hkk
        simp [dictOverwrite, dictGet, hk, hkk, hak, ih]
      · by_cases hak : a = k'
        · simp [dictOverwrite, dictGet, hk, hak, hne]
        · simp [dictOverwrite, dictGet, hk, hak, ih]

theorem dictGet_append_last (d : FilesDict) (k : String)
    (v : Option String × FileContent) (h : dictGet d k = none) :
    dictGet (d ++ [(k, v)]) k = some v := by
  induction d with
  | nil => simp [dictGet]
  | cons hd tl ih =>
      obtain ⟨a, b⟩ := hd
      by_cases hk : a = k
      · simp [dictGet, hk] at h
      · simp only [dictGet, if_neg hk] at h
        simpa [dictGet, hk] using ih h

theorem dictGet_append_preserve (d : FilesDict) (k k' : String)
    (v : Option String × FileContent) (hne : k' ≠ k) :
    dictGet (d ++ [(k, v)]) k' = dictGet d k' := by
  induction d with
  | nil =>
      have hkk : ¬ k = k' := fun he => hne he.symm
      simp [dictGet, hkk]
  | cons hd tl ih =>
      obtain ⟨a, b⟩ := hd
      by_cases hak : a = k'
      · simp [dictGet, hak]
      · simp [dictGet, hak, ih]

/-- Assigning under a key makes it present with the assigned value. -/
theorem dictGet_dictSet_self (d : FilesDict) (k : String)
    (v : Option String × FileContent) : dictGet (dictSet d k v) k = some v := by
  unfold dictSet
  split
  · exact dictGet_overwrite_self k v d (by assumption)
  · rename_i h
    have h0 : dictGet d k = none := by
      cases hd : dictGet d k with
      | none => rfl
      | some x => rw [hd] at h; simp at h
    exact dictGet_append_last d k v h0

/-- Assigning under a key leaves every other key's value unchanged. -/
theorem dictGet_dictSet_other (d : FilesDict) (k k' : String)
    (v : Option String × FileContent) (hne : k' ≠ k) :
    dictGet (dictSet d k v) k' = dictGet d k' := by
  unfold dictSet
  split
  · exact dictGet_overwrite_other k k' v hne d
  · exact dictGet_append_preserve d k k' v hne

/-- A dict is nonempty after an assignment into it. -/
theorem dictSet_ne_nil (d : FilesDict) (k : String)
    (v : Option String × FileContent) : dictSet d k v ≠ [] := by
  unfold dictSet
  split
  · rename_i h
    intro hc
    cases d with
    | nil => simp [dictGet] at h
    | cons hd tl =>
        obtain ⟨a, b⟩ := hd
        by_cases hk : a = k <;> simp [dictOverwrite, hk] at hc
  · intro hc
    cases d <;> simp at hc

/-! Projection lemmas for the lifecycle steps. -/

theorem api_post_fst_id (s : WebhookState) : (api_post_request s).1.id = s.id := by
  unfold api_post_request; split <;> rfl

theorem api_post_fst_attachments (s : WebhookState) :
    (api_post_request s).1.attachments = s.attachments := by
  unfold api_post_request; split <;> rfl

theorem api_post_fst_embeds (s : WebhookState) :
    (api_post_request s).1.embeds = s.embeds := by
  unfold api_post_request; split <;> rfl

theorem api_post_fst_rate_limit_retry (s : WebhookState) :
    (api_post_request s).1.rate_limit_retry = s.rate_limit_retry := by
  unfold api_post_request; split <;> rfl

theorem cleanup_files (t : WebhookState) (re : Bool) : (cleanup t re).files = [] := by
  cases re <;> rfl

theorem cleanup_embeds (t : WebhookState) (re : Bool) :
    (cleanup t re).embeds = if re then [] else t.embeds := by
  cases re <;> rfl

theorem cleanup_id (t : WebhookState) (re : Bool) : (cleanup t re).id = t.id := by
  cases re <;> rfl

theorem cleanup_attachments (t : WebhookState) (re : Bool) :
    (cleanup t re).attachments = t.attachments := by
  cases re <;> rfl

theorem reconcile_sync_files (t : WebhookState) (b : RespBody) :
    (reconcile_sync t b).files = t.files := by
  obtain ⟨bid, batt, bra⟩ := b
  cases bid <;> cases batt <;> simp only [reconcile_sync] <;> split_ifs <;> rfl

theorem reconcile_sync_embeds (t : WebhookState) (b : RespBody) :
    (reconcile_sync t b).embeds = t.embeds := by
  obtain ⟨bid, batt, bra⟩ := b
  cases bid <;> cases batt <;> simp only [reconcile_sync] <;> split_ifs <;> rfl

theorem reconcile_sync_id_eq (t : WebhookState) (b : RespBody) :
    (reconcile_sync t b).id
      = (match b.id with
         | some i => if i = "" then t.id else some i
         | none => t.id) := by
  obtain ⟨bid, batt, bra⟩ := b
  cases bid <;> cases batt <;> simp only [reconcile_sync] <;> split_ifs <;> rfl

theorem reconcile_sync_attachments_eq (t : WebhookState) (b : RespBody) :
    (reconcile_sync t b).attachments
      = (match b.attachments with
         | some a => if a = [] then t.attachments else a
         | none => t.attachments) := by
  obtain ⟨bid, batt, bra⟩ := b
  cases bid <;> cases batt <;> simp only [reconcile_sync] <;> split_ifs <;> rfl

/-- The non-blocking reconciliation is the blocking one with the attachments
left at their previous value. -/
theorem reconcile_relate (t : WebhookState) (b : RespBody) :
    reconcile_async t b = { reconcile_sync t b with attachments := t.attachments } := by
  obtain ⟨bid, batt, bra⟩ := b
  cases bid <;> cases batt <;> simp only [reconcile_sync, reconcile_async] <;>
    split_ifs <;> rfl

/-! Claim theorems. -/

/-- C1 (counterexample): contrary to the claim, reconciliation is not
best-effort: on a 200 response whose body is not valid JSON, `execute`
raises a JSON decode error instead of returning the response normally. -/
theorem C1_counterexample :
    (execute wFix false respNonJson []).result = .error .jsonDecodeError ∧
    (execute wFix false respNonJson []).result ≠ .ok respNonJson := by
  decide

/-- C2 (code-bug probe): constructing with an explicit `id` keyword leaves
the identifier unset (the supplied "999" is dropped), contradicting the
claim; the other parts of the claim hold: with no `id` the identifier is
parsed from the path segment before the last, and a too-short or absent URL
raises `ValueError`. -/
theorem C2_id_probe :
    init_webhook (some "https://discord.com/api/webhooks/123456789/abcDEF") (some "999")
      = .ok { id := none, url := some "https://discord.com/api/webhooks/123456789/abcDEF" } ∧
    init_webhook (some "https://discord.com/api/webhooks/123456789/abcDEF") none
      = .ok { id := some "123456789",
              url := some "https://discord.com/api/webhooks/123456789/abcDEF" } ∧
    init_webhook (some "abcDEF") none
      = .error "ValueError: id was not passed and not parseable from the URL" ∧
    init_webhook none none
      = .error "ValueError: id was not passed and not parseable from the URL" := by
  exact ⟨rfl, rfl, rfl, rfl⟩

/-- C3: on a 429 carrying the `Via` header with `retry_after = 0.5` followed
by a 200, the retry loop performs exactly one sleep of `0.5 + 0.15 ≥ 0.65`
and returns the 200; on a 429 without the `Via` header it raises
`HTTPException` at once, with no sleep and no resubmission, whatever
responses were still pending. -/
theorem C3_rate_limit_retry_loop :
    handle_rate_limit resp429Via [resp200] = ([1/2 + 15/100], .ok resp200) ∧
    ((1/2 : ℚ) + 15/100 ≥ 65/100) ∧
    (∀ pending : List Response,
      handle_rate_limit resp429NoVia pending = ([], .error .httpException)) := by
  refine ⟨rfl, by norm_num, ?_⟩
  intro pending
  simp [handle_rate_limit, resp429NoVia]

/-- C3 witness: the no-`Via` half of the theorem applied to a concrete
pending stream. -/
theorem C3_witness :
    handle_rate_limit resp429NoVia [resp200] = ([], .error .httpException) :=
  C3_rate_limit_retry_loop.2.2 [resp200]

/-- C4 (counterexample): contrary to the claim, an `edit` with files present
sends no query parameters at all — in particular no `wait=true`. -/
theorem C4_counterexample :
    ((edit wFilesFix resp200 []).request.map fun q => q.params)
      = some { thread_id := none, wait := none } := by
  decide

/-- C5 (counterexample): the two variants do not have equivalent lifecycle
behaviour: on the same 200 response carrying server-echoed attachments, the
blocking `execute` absorbs them and the non-blocking one does not; on the
same 429-then-200 sequence with retry enabled, the blocking `delete` waits
and returns the 200 while the non-blocking `delete` returns the 429 with no
retry handling. -/
theorem C5_counterexample :
    (execute wFix false resp200Body []).state.attachments = ["srv"] ∧
    (async_execute wFix false resp200Body []).state.attachments = [] ∧
    delete wFix resp429Via [resp200] = ([1/2 + 15/100], .ok resp200) ∧
    async_delete wFix resp429Via = ([], .ok resp429Via) := by
  exact ⟨rfl, rfl, rfl, rfl⟩

/-- C6 (counterexample): contrary to the claim, the files mapping is not
cleared on every outcome: when the retry loop raises (429 without `Via`,
retry enabled), `execute` propagates the exception before the cleanup, and
the files dict still holds the file slot and the `payload_json` entry. -/
theorem C6_counterexample :
    (execute wFilesFix false resp429NoVia []).result
      = .error (.rateLimit .httpException) ∧
    (execute wFilesFix false resp429NoVia []).state.files ≠ [] := by
  constructor
  · decide
  · have h : (execute wFilesFix false resp429NoVia []).state.files
        = dictSet wFilesFix.files "payload_json"
            (none, .payloadJson (dumps wFilesFix.jsonProp)) := rfl
    rw [h]
    exact dictSet_ne_nil _ _ _

/-- C7 (code-bug probe): `length()` does not return the character sum — on
an embed with title "t" and one field ("a", "bc") it raises a ValueError
(the three-key field dict cannot unpack into two names) where the claim
expects 4; on an embed with title "t" and footer text "hello" it returns 2
(title length 1 plus the footer dict's key count 1) where the claim expects
6. -/
theorem C7_len_probe :
    DiscordEmbed.len { title := some "t", fields := [{ name := "a", value := "bc" }] }
      = .error "ValueError: too many values to unpack" ∧
    DiscordEmbed.len { title := some "t", footer := some { text := "hello" } }
      = .ok 2 := by
  decide

/-- C8 (counterexample): contrary to the claim, `set_color 0` succeeds but
the serialized output does not contain the color — `as_dict` omits the
`color` key because `0` is Python-falsy. -/
theorem C8_counterexample :
    (DiscordEmbed.set_color (some (.int 0)) {}).2 = none ∧
    ((DiscordEmbed.set_color (some (.int 0)) {}).1.as_dict).color = none := by
  decide

/-- C1 (amended): for every response that does not enter the rate-limit
retry path — any status: 200/204 successes and non-2xx delivery failures
alike — reconciliation raises a JSON decode error when the body is not
valid JSON, so `execute` does not return such a response; when the body
parses as JSON, `execute` returns the response normally and updates the
local id and attachments exactly when the body carries a truthy value for
them. -/
theorem C1_amended (s : WebhookState) (re : Bool) (resp : Response)
    (pending : List Response)
    (hnr : ¬(resp.status = 429 ∧ s.rate_limit_retry = true)) :
    ((execute s re resp pending).result = .error .jsonDecodeError
      ↔ resp.body = none) ∧
    (∀ b, resp.body = some b →
      (execute s re resp pending).result = .ok resp ∧
      (execute s re resp pending).state.id
        = (match b.id with
           | some i => if i = "" then s.id else some i
           | none => s.id) ∧
      (execute s re resp pending).state.attachments
        = (match b.attachments with
           | some a => if a = [] then s.attachments else a
           | none => s.attachments)) := by
  have hd : dispatch (api_post_request s).1 resp pending = ([], .ok resp) := by
    have h429 : ¬(resp.status = 429 ∧ (api_post_request s).1.rate_limit_retry = true) := by
      rw [api_post_fst_rate_limit_retry]
      exact hnr
    unfold dispatch
    by_cases h2 : resp.status = 200 ∨ resp.status = 204
    · rw [if_pos h2]
    · rw [if_neg h2, if_neg h429]
  constructor
  · cases hb : resp.body with
    | none => simp [execute, hd, hb]
    | some b => simp [execute, hd, hb]
  · intro b hb
    refine ⟨by simp [execute, hd, hb], ?_, ?_⟩
    · simp only [execute, hd, hb]
      rw [reconcile_sync_id_eq, cleanup_id, api_post_fst_id]
    · simp only [execute, hd, hb]
      rw [reconcile_sync_attachments_eq, cleanup_attachments, api_post_fst_attachments]

/-- C1 witness: the amended theorem at a concrete 200 response with a JSON
body carrying id "9" and attachments, and at a concrete 204 response with
an empty (non-JSON) body, where `execute` raises the decode error. -/
theorem C1_amended_witness :
    (execute wFix false resp200Body []).result = .ok resp200Body ∧
    (execute wFix false resp204 []).result = .error .jsonDecodeError :=
  ⟨((C1_amended wFix false resp200Body [] (by decide)).2
      { id := some "9", attachments := some ["srv"] } rfl).1,
   (C1_amended wFix false resp204 [] (by decide)).1.mpr rfl⟩

/-- The request issued by `edit` once the preconditions hold. -/
theorem edit_request (s : WebhookState) (resp : Response) (pending : List Response)
    (h : ¬(s.id = none ∨ s.url = none)) :
    (edit s resp pending).request
      = some
          (if s.files = [] then
            { method := "PATCH", url := some (editUrl s),
              params := { wait := some true }, jsonBody := some s.jsonProp }
          else
            { method := "PATCH", url := some (editUrl s),
              multipart := some (dictSet s.files "payload_json"
                (none, .payloadJson (dumps s.jsonProp))) }) := by
  by_cases hf : s.files = []
  · simp only [edit, if_neg h, if_pos hf]
    cases hstep : (dispatch s resp pending).2 <;> simp [hstep]
  · simp only [edit, if_neg h, if_neg hf]
    cases hstep : (dispatch { s with
        files := dictSet s.files "payload_json"
          (none, .payloadJson (dumps s.jsonProp)) } resp pending).2 <;> simp [hstep]

/-- The state after `edit`: the only mutation is the `payload_json`
assignment performed when files are present. -/
theorem edit_state (s : WebhookState) (resp : Response) (pending : List Response)
    (h : ¬(s.id = none ∨ s.url = none)) :
    (edit s resp pending).state
      = (if s.files = [] then s
         else { s with
                files := dictSet s.files "payload_json"
                  (none, .payloadJson (dumps s.jsonProp)) }) := by
  by_cases hf : s.files = []
  · simp only [edit, if_neg h, if_pos hf]
    cases hstep : (dispatch s resp pending).2 <;> simp [hstep]
  · simp only [edit, if_neg h, if_neg hf]
    cases hstep : (dispatch { s with
        files := dictSet s.files "payload_json"
          (none, .payloadJson (dumps s.jsonProp)) } resp pending).2 <;> simp [hstep]

/-- C4 (amended): `edit` forces `wait=true` only on the no-files (JSON body)
path; when files are present the PATCH is issued with no query parameters at
all, so no `wait` is sent. -/
theorem C4_amended (s : WebhookState) (resp : Response) (pending : List Response)
    (hid : s.id ≠ none) (hurl : s.url ≠ none) :
    (s.files = [] →
      ((edit s resp pending).request.map fun q => q.params.wait) = some (some true)) ∧
    (s.files ≠ [] →
      ((edit s resp pending).request.map fun q => q.params) = some ({} : QueryParams)) := by
  have h : ¬(s.id = none ∨ s.url = none) := by
    rintro (hc | hc)
    exacts [hid hc, hurl hc]
  constructor
  · intro hf
    rw [edit_request s resp pending h, if_pos hf]
    rfl
  · intro hf
    rw [edit_request s resp pending h, if_neg hf]
    rfl

/-- C4 witness: the amended theorem at concrete webhooks, one without files
(`wait=true` sent) and one with a file (no query parameters). -/
theorem C4_amended_witness :
    ((edit wFix resp200 []).request.map fun q => q.params.wait) = some (some true) ∧
    ((edit wFilesFix resp200 []).request.map fun q => q.params) = some ({} : QueryParams) :=
  ⟨(C4_amended wFix resp200 [] (by decide) (by decide)).1 rfl,
   (C4_amended wFilesFix resp200 [] (by decide) (by decide)).2 (by decide)⟩

/-- C5 (amended): on identical response sequences the non-blocking `execute`
agrees with the blocking one in the returned result, the sleeps, and the
whole final state except for `attachments`, which it always leaves at its
pre-call value (it never absorbs the server echo); and the non-blocking
`delete` applies no 429 retry handling at all, returning the first response
unchanged with no waits. -/
theorem C5_amended (s : WebhookState) (re : Bool) (resp : Response)
    (pending : List Response) :
    async_execute s re resp pending
      = { state := { (execute s re resp pending).state with attachments := s.attachments },
          sleeps := (execute s re resp pending).sleeps,
          result := (execute s re resp pending).result } ∧
    (∀ resp2 : Response, s.id ≠ none → s.url ≠ none →
      async_delete s resp2 = ([], .ok resp2)) := by
  have hatt1 : (api_post_request s).1.attachments = s.attachments :=
    api_post_fst_attachments s
  have hcl : (cleanup (api_post_request s).1 re).attachments = s.attachments := by
    rw [cleanup_attachments, hatt1]
  constructor
  · cases hstep : (dispatch (api_post_request s).1 resp pending).2 with
    | error e =>
        simp only [execute, async_execute, hstep]
        rw [← hatt1]
    | ok r =>
        cases hb : r.body with
        | none =>
            simp only [execute, async_execute, hstep, hb]
            rw [← hcl]
        | some b =>
            simp only [execute, async_execute, hstep, hb]
            rw [reconcile_relate, hcl]
  · intro resp2 hid hurl
    have h : ¬(s.id = none ∨ s.url = none) := by
      rintro (hc | hc)
      exacts [hid hc, hurl hc]
    simp [async_delete, h]

/-- C5 witness: the amended theorem at a concrete state and a concrete 200
response carrying attachments. -/
theorem C5_amended_witness :
    async_execute wFix false resp200Body []
      = { state := { (execute wFix false resp200Body []).state with
                     attachments := wFix.attachments },
          sleeps := (execute wFix false resp200Body []).sleeps,
          result := (execute wFix false resp200Body []).result } ∧
    async_delete wFix resp200 = ([], .ok resp200) :=
  ⟨(C5_amended wFix false resp200Body []).1,
   (C5_amended wFix false resp200Body []).2 resp200 (by decide) (by decide)⟩

/-- C6 (amended): whenever `execute` does not raise out of the rate-limit
retry loop, the claim holds: files are cleared, embeds are empty exactly
when `remove_embeds` was requested or they were already empty, and
attachments keep their pre-call value unless the returned response's body
carried a truthy attachments list, which then becomes the new value.  (The
counterexample shows the retry-loop raise path violates the unconditional
claim.) -/
theorem C6_amended (s : WebhookState) (re : Bool) (resp : Response)
    (pending : List Response)
    (hok : ∀ e, (execute s re resp pending).result ≠ .error (.rateLimit e)) :
    (execute s re resp pending).state.files = [] ∧
    ((execute s re resp pending).state.embeds = [] ↔ (re = true ∨ s.embeds = [])) ∧
    ((execute s re resp pending).state.attachments = s.attachments ∨
      (∃ r b, (execute s re resp pending).result = .ok r ∧ r.body = some b ∧
        b.attachments = some ((execute s re resp pending).state.attachments) ∧
        (execute s re resp pending).state.attachments ≠ [])) := by
  cases hstep : (dispatch (api_post_request s).1 resp pending).2 with
  | error e =>
      exact absurd (by simp [execute, hstep]) (hok e)
  | ok r =>
      have hembeds : (execute s re resp pending).state.embeds
          = (if re then [] else s.embeds) := by
        cases hb : r.body with
        | none =>
            simp only [execute, hstep, hb]
            rw [cleanup_embeds, api_post_fst_embeds]
        | some b =>
            simp only [execute, hstep, hb]
            rw [reconcile_sync_embeds, cleanup_embeds, api_post_fst_embeds]
      refine ⟨?_, ?_, ?_⟩
      · cases hb : r.body with
        | none => simp only [execute, hstep, hb]; rw [cleanup_files]
        | some b =>
            simp only [execute, hstep, hb]
            rw [reconcile_sync_files, cleanup_files]
      · rw [hembeds]
        cases re <;> simp
      · cases hb : r.body with
        | none =>
            left
            simp only [execute, hstep, hb]
            rw [cleanup_attachments, api_post_fst_attachments]
        | some b =>
            cases hba : b.attachments with
            | none =>
                left
                simp only [execute, hstep, hb]
                simp only [reconcile_sync_attachments_eq, hba, cleanup_attachments,
                  api_post_fst_attachments]
            | some atts =>
                by_cases hae : atts = []
                · left
                  simp only [execute, hstep, hb]
                  simp only [reconcile_sync_attachments_eq, hba, if_pos hae,
                    cleanup_attachments, api_post_fst_attachments]
                · right
                  refine ⟨r, b, by simp [execute, hstep, hb], hb, ?_, ?_⟩
                  · simp only [execute, hstep, hb]
                    simp only [reconcile_sync_attachments_eq, hba, if_neg hae]
                  · simp only [execute, hstep, hb]
                    simp only [reconcile_sync_attachments_eq, hba, if_neg hae]
                    exact hae

/-- C6 witness: the amended theorem at a concrete no-files state and a plain
200 response. -/
theorem C6_amended_witness :
    (execute wFix false resp200 []).state.files = [] ∧
    ((execute wFix false resp200 []).state.embeds = []
      ↔ (false = true ∨ wFix.embeds = [])) :=
  have h := C6_amended wFix false resp200 []
    (by
      intro e
      rw [show (execute wFix false resp200 []).result = .ok resp200 from rfl]
      simp)
  ⟨h.1, h.2.1⟩

/-- C8 (amended): every integer color in [0, 16777215] is accepted, and the
serialized output carries it back unchanged except for 0, which `as_dict`
omits (Python falsiness); colors outside the range raise the range error;
hexadecimal strings behave exactly as their integer value; `None` neither
raises nor leaves a color. -/
theorem C8_amended (c : Int) (e : DiscordEmbed) :
    ((0 ≤ c ∧ c < 16777216) →
      (DiscordEmbed.set_color (some (.int c)) e).2 = none ∧
      ((DiscordEmbed.set_color (some (.int c)) e).1.as_dict).color
        = (if c = 0 then none else some c)) ∧
    (¬(0 ≤ c ∧ c < 16777216) →
      (DiscordEmbed.set_color (some (.int c)) e).2 = some "ColorNotInRangeException") ∧
    (∀ ds : List (Fin 16),
      DiscordEmbed.set_color (some (.hex ds)) e
        = DiscordEmbed.set_color (some (.int (hexValue ds))) e) ∧
    ((DiscordEmbed.set_color none e).2 = none ∧
      (DiscordEmbed.set_color none e).1.color = none ∧
      ((DiscordEmbed.set_color none e).1.as_dict).color = none) := by
  refine ⟨?_, ?_, fun ds => rfl, rfl, rfl, rfl⟩
  · intro hr
    constructor
    · simp only [DiscordEmbed.set_color, if_pos hr]
    · simp only [DiscordEmbed.set_color, if_pos hr, DiscordEmbed.as_dict]
  · intro hr
    simp only [DiscordEmbed.set_color, if_neg hr]

/-- C8 witness: the amended theorem at color 5 on a fresh embed. -/
theorem C8_amended_witness :
    (DiscordEmbed.set_color (some (.int 5)) {}).2 = none ∧
    ((DiscordEmbed.set_color (some (.int 5)) {}).1.as_dict).color
      = (if (5 : Int) = 0 then none else some (5 : Int)) :=
  (C8_amended 5 {}).1 (by decide)

/-- Every instance built by the constructor loop carries its own url and the
shared content. -/
theorem construct_all_urls (cfg : BatchConfig) :
    ∀ (urls : List String) (st : EmbedStore),
      ((construct_all urls cfg st).1.map fun w => w.url) = urls ∧
      (∀ w ∈ (construct_all urls cfg st).1, w.content = cfg.content) := by
  intro urls
  induction urls with
  | nil => intro st; simp [construct_all]
  | cons u rest ih =>
      intro st
      have hu : (init_view u cfg st).1.url = u := by
        unfold init_view
        cases cfg.embedsRef <;> rfl
      have hc : (init_view u cfg st).1.content = cfg.content := by
        unfold init_view
        cases cfg.embedsRef <;> rfl
      simp only [construct_all]
      constructor
      · simp only [List.map_cons, hu, (ih (init_view u cfg st).2).1]
      · intro w hw
        simp only [List.mem_cons] at hw
        cases hw with
        | inl h => rw [h, hc]
        | inr h => exact (ih (init_view u cfg st).2).2 w h

/-- C9: `create_batch` with a url in the shared configuration raises the
TypeError; otherwise it returns one instance per url, the i-th carrying the
i-th url and the shared content; and on the claim's example (two urls,
shared content "hi") the instances' embed references are distinct fresh
allocations, so appending an embed through one reference leaves the embed
sequence read through the other unchanged. -/
theorem C9_create_batch :
    (∀ (urls : List String) (cfg : BatchConfig) (st : EmbedStore),
      cfg.hasUrlKw = false →
      ∃ ws st2, create_batch urls cfg st = .ok (ws, st2) ∧
        (ws.map fun w => w.url) = urls ∧
        (∀ w ∈ ws, w.content = cfg.content)) ∧
    (∀ (urls : List String) (cfg : BatchConfig) (st : EmbedStore),
      cfg.hasUrlKw = true →
      create_batch urls cfg st
        = .error "TypeError: url cannot be used as a keyword argument.") ∧
    (∃ w1 w2 st2,
      create_batch ["url1", "url2"] { content := some "hi" } [] = .ok ([w1, w2], st2) ∧
      w1.embedsRef ≠ w2.embedsRef ∧
      (∀ e : DiscordEmbed,
        get_embeds_at (add_embed_at st2 w1.embedsRef e) w2 = get_embeds_at st2 w2 ∧
        get_embeds_at (add_embed_at st2 w2.embedsRef e) w1 = get_embeds_at st2 w1 ∧
        get_embeds_at (add_embed_at st2 w1.embedsRef e) w1
          = get_embeds_at st2 w1 ++ [e])) := by
  refine ⟨?_, ?_, ?_⟩
  · intro urls cfg st hk
    refine ⟨(construct_all urls cfg st).1, (construct_all urls cfg st).2, ?_,
      (construct_all_urls cfg urls st).1, (construct_all_urls cfg urls st).2⟩
    unfold create_batch
    rw [hk]
    rfl
  · intro urls cfg st hk
    unfold create_batch
    rw [hk]
    rfl
  · refine ⟨{ url := "url1", content := some "hi", embedsRef := 0 },
      { url := "url2", content := some "hi", embedsRef := 1 }, [[], []],
      rfl, by decide, ?_⟩
    intro e
    exact ⟨rfl, rfl, rfl⟩

/-- C9 witness: the general part of the theorem at a concrete url list and
the claim's shared configuration. -/
theorem C9_witness :
    ∃ ws st2,
      create_batch ["url1", "url2"] { content := some "hi" } [] = .ok (ws, st2) ∧
      (ws.map fun w => w.url) = ["url1", "url2"] ∧
      (∀ w ∈ ws, w.content = (({ content := some "hi" } : BatchConfig)).content) :=
  C9_create_batch.1 ["url1", "url2"] { content := some "hi" } [] rfl

/-- C10: whenever files are present, `api_post_request` assigns the
serialized payload into the webhook's own files dict under `payload_json`
and posts exactly that mutated dict; `edit` performs the same assignment,
issues the PATCH with that dict, and never clears the files afterwards, so
the state after an `edit` with files still holds every pre-existing file
slot together with the `payload_json` entry. -/
theorem C10_payload_json (s : WebhookState) (resp : Response)
    (pending : List Response) (hf : s.files ≠ [])
    (hid : s.id ≠ none) (hurl : s.url ≠ none) :
    dictGet (api_post_request s).1.files "payload_json"
      = some (none, .payloadJson (dumps s.jsonProp)) ∧
    (api_post_request s).2.multipart = some (api_post_request s).1.files ∧
    dictGet (edit s resp pending).state.files "payload_json"
      = some (none, .payloadJson (dumps s.jsonProp)) ∧
    ((edit s resp pending).request.map fun q => q.multipart)
      = some (some ((edit s resp pending).state.files)) ∧
    (∀ k v, dictGet s.files k = some v → k ≠ "payload_json" →
      dictGet (edit s resp pending).state.files k = some v) := by
  have h : ¬(s.id = none ∨ s.url = none) := by
    rintro (hc | hc)
    exacts [hid hc, hurl hc]
  have hapi1 : (api_post_request s).1.files
      = dictSet s.files "payload_json" (none, .payloadJson (dumps s.jsonProp)) := by
    unfold api_post_request
    rw [if_neg hf]
  have hedit : (edit s resp pending).state.files
      = dictSet s.files "payload_json" (none, .payloadJson (dumps s.jsonProp)) := by
    rw [edit_state s resp pending h, if_neg hf]
  refine ⟨?_, ?_, ?_, ?_, ?_⟩
  · rw [hapi1]
    exact dictGet_dictSet_self _ _ _
  · unfold api_post_request
    rw [if_neg hf]
  · rw [hedit]
    exact dictGet_dictSet_self _ _ _
  · rw [edit_request s resp pending h, if_neg hf, hedit]
    rfl
  · intro k v hk hkne
    rw [hedit, dictGet_dictSet_other s.files "payload_json" k _ hkne]
    exact hk

/-- C10 witness: the theorem at the concrete one-file webhook. -/
theorem C10_witness :
    dictGet (api_post_request wFilesFix).1.files "payload_json"
      = some (none, .payloadJson (dumps wFilesFix.jsonProp)) ∧
    dictGet (edit wFilesFix resp200 []).state.files "payload_json"
      = some (none, .payloadJson (dumps wFilesFix.jsonProp)) :=
  have h := C10_payload_json wFilesFix resp200 [] (by decide) (by decide) (by decide)
  ⟨h.1, h.2.2.1⟩

end DiscordWebhookModel
